import Mathlib

/-!
Verification of the Brand Resonance App's Hybrid Analysis Engine.

The engine is embedded shallowly: scores are rationals (`ℚ`), the
processor pipeline is a left fold over stage functions (mirroring
`ProcessorPipeline.process` in the hybrid-mode design document), the
orchestrator `HybridAnalyzer.analyze` follows the data flow of the design
document's sketch, and the components that exist only as contracts in the
specification (data combiner, confidence calculator, oracle-score
validation, sentiment cut points) are modelled from the specification's
words, each marked as such in its doc comment.
-/

namespace Resonance

/-- The five sentiment labels of a ProcessedItem. -/
inductive SentimentLabel
  | very_negative
  | negative
  | neutral
  | positive
  | very_positive
  deriving DecidableEq, Repr

/-- The intent categories of a ProcessedItem: three positive categories
plus "none". -/
inductive IntentCategory
  | awareness
  | consideration
  | conversion
  | no_intent
  deriving DecidableEq, Repr

/-- One collected/processed content item.  The raw fields follow the
RawItem data model; the optional fields are the annotations a pipeline
stage may add (mirroring Python dicts gaining keys as they pass through
processors). -/
structure Item where
  source : String
  external_id : String
  text : String
  timestamp : ℤ
  engagement_count : ℕ
  normalized_text : Option String := none
  sentiment_label : Option SentimentLabel := none
  sentiment_score : Option ℚ := none
  intent_category : Option IntentCategory := none
  deriving DecidableEq, Repr

/-- `ProcessorPipeline.process`: feeds the data through all processors in
order (`processed_data = data; for processor in self.processors:
processed_data = processor.process(processed_data)`). -/
def ProcessorPipeline.process (processors : List (List Item → List Item))
    (data : List Item) : List Item :=
  processors.foldl (fun processed_data p => p processed_data) data

/-- The five metric names. -/
inductive MetricName
  | conversational_depth
  | community_spread
  | emotional_intensity
  | intent_signals
  | advocacy_language
  deriving DecidableEq, Repr

/-- The fixed metric weight table (Conversational Depth 10%, Community
Spread 15%, Emotional Intensity 20%, Intent Signals 30%, Advocacy
Language 25%). -/
def metricWeight : MetricName → ℚ
  | .conversational_depth => 0.10
  | .community_spread => 0.15
  | .emotional_intensity => 0.20
  | .intent_signals => 0.30
  | .advocacy_language => 0.25

/-- Enumeration of the five metrics, in the order of the weight table. -/
def allMetrics : List MetricName :=
  [.conversational_depth, .community_spread, .emotional_intensity,
   .intent_signals, .advocacy_language]

/-- Clamp a score to [0, 100]. -/
def clampScore (x : ℚ) : ℚ := max 0 (min 100 x)

/-- The weighted sum `Σ (weight_i * score_i)` over the five metrics. -/
def weightedSum (f : MetricName → ℚ) : ℚ :=
  (allMetrics.map (fun m => metricWeight m * f m)).sum

/-- Modelled from the spec: the metric aggregator's
`overall_score = Σ(weight_i * metric_i.score)`, clamped to [0,100]
(the aggregation code itself exists only as a contract in the design
document). -/
def overallScore (f : MetricName → ℚ) : ℚ := clampScore (weightedSum f)

/-- `Math.round(score)` as used by `ResonanceScoreCard` when displaying
the score: JavaScript rounds half up. -/
def displayedScore (x : ℚ) : ℤ := ⌊x + 1/2⌋

/-- `getScoreColor` from `ResonanceScoreCard.js`. -/
def getScoreColor (score : ℚ) : String :=
  if score ≥ 80 then "#4caf50"
  else if score ≥ 60 then "#2196f3"
  else if score ≥ 40 then "#ff9800"
  else "#f44336"

/-- `getScoreVariant` from `ResonanceScoreCard.js`. -/
def getScoreVariant (score : ℚ) : String :=
  if score ≥ 80 then "success"
  else if score ≥ 60 then "info"
  else if score ≥ 40 then "warning"
  else "error"

/-- Modelled from the spec: the sentiment classification stage maps a
continuous polarity estimate to a discrete label by fixed cut points
(score < -0.6 very_negative; [-0.6,-0.2) negative; [-0.2,0.2] neutral;
(0.2,0.6] positive; > 0.6 very_positive).  The sentiment processor is
not present under src. -/
def sentimentLabelOf (score : ℚ) : SentimentLabel :=
  if score < -0.6 then .very_negative
  else if score < -0.2 then .negative
  else if score ≤ 0.2 then .neutral
  else if score ≤ 0.6 then .positive
  else .very_positive

/-- Number of items carrying a given sentiment label. -/
def sentimentCount (items : List Item) (lab : SentimentLabel) : ℕ :=
  (items.filter (fun i => i.sentiment_label = some lab)).length

/-- Modelled from the spec: `_combine_data`'s cross-source sentiment
distribution, weighted by item count — the share of a label is the
number of items carrying it across all sources over the total number of
items (`_combine_data` is not present under src). -/
def combinedSentimentShare (datasets : List (String × List Item))
    (lab : SentimentLabel) : ℚ :=
  let allItems := (datasets.map Prod.snd).flatten
  (sentimentCount allItems lab : ℚ) / (allItems.length : ℚ)

/-- Per-source share of a sentiment label within one dataset. -/
def sentimentShare (items : List Item) (lab : SentimentLabel) : ℚ :=
  (sentimentCount items lab : ℚ) / (items.length : ℚ)

/-- Modelled from the spec: the confidence calculator's sample-size
factor, a saturating function `min(1, count / target_count)` of the
total contributing item count. -/
def sampleSizeFactor (count target : ℕ) : ℚ :=
  min 1 ((count : ℚ) / (target : ℚ))

/-- Modelled from the spec: the confidence calculator's source-diversity
factor, `distinct_sources_contributing / total_sources_queried`. -/
def sourceDiversityFactor (contributing queried : ℕ) : ℚ :=
  (contributing : ℚ) / (queried : ℚ)

/-- Modelled from the spec: the confidence calculator's agreement
factor, one minus the normalized divergence between the measured-only
score and the AI-enhanced score. -/
def agreementFactor (normalizedDivergence : ℚ) : ℚ :=
  1 - normalizedDivergence

/-- Modelled from the spec: `ConfidenceCalculator.calculate`'s per-metric
confidence, the multiplicative combination of the three factors
(`ConfidenceCalculator` is not present under src). -/
def confidenceScore (count target contributing queried : ℕ)
    (normalizedDivergence : ℚ) : ℚ :=
  sampleSizeFactor count target * sourceDiversityFactor contributing queried *
    agreementFactor normalizedDivergence

/-- Modelled from the spec: the oracle interface validates that a
returned score is within [0,100] before use, discarding it otherwise
(a missing score is likewise absent). -/
def validateOracleScore : Option ℚ → Option ℚ
  | none => none
  | some v => if 0 ≤ v ∧ v ≤ 100 then some v else none

/-- Modelled from the spec: the enhancer's reliability-weighted blend of
the measured-only score and the (already validated) oracle score; with
no oracle score it falls back to the measured score, and with neither it
defaults to the neutral midpoint 50. -/
def blendedScore (measured : Option ℚ) (oracle : Option ℚ)
    (realWeight : ℚ) : ℚ :=
  match measured, oracle with
  | some m, some a => realWeight * m + (1 - realWeight) * a
  | some m, none => m
  | none, some a => a
  | none, none => 50

/-- A metric's final score: the blend of the measured score with the
validated oracle score, clamped to [0,100] (the MetricResult invariant). -/
def metricScore (measured : Option ℚ) (rawOracle : Option ℚ)
    (realWeight : ℚ) : ℚ :=
  clampScore (blendedScore measured (validateOracleScore rawOracle) realWeight)

/-- One metric of the final result. -/
structure MetricResult where
  score : ℚ
  key_insights : List String
  contributing_sources : List String
  deriving Repr

/-- What the oracle returns for one metric: a score (possibly missing or
out of range) and narrative insights. -/
structure OracleReply where
  score : Option ℚ
  key_insights : List String
  deriving Repr

/-- The final artifact of one analysis run, mirroring the dict returned
by `HybridAnalyzer.analyze` plus the overall score of the spec's
ResonanceResult. -/
structure ResonanceResult where
  metrics : MetricName → MetricResult
  confidence_scores : MetricName → ℚ
  overall_score : ℚ
  data_sources : List String
  data_counts : List (String × ℕ)
  timeframe : String

/-- The analysis errors relevant here; NoDataAvailable is the only fatal
terminal state. -/
inductive AnalysisError
  | noDataAvailable
  deriving DecidableEq, Repr

/-- The per-source collection outcomes: `none` marks a source whose
collection failed, `some data` a source that was queried successfully
(possibly with zero items). -/
abbrev CollectorOutcomes := List (String × Option (List Item))

/-- The successful part of collection: failed sources are excluded, per
the spec's partial-failure handling. -/
def collectedData (collectors : CollectorOutcomes) :
    List (String × List Item) :=
  collectors.filterMap (fun p => p.2.map (fun d => (p.1, d)))

/-- Total number of raw items obtained across all successful sources. -/
def collectedItemCount (collectors : CollectorOutcomes) : ℕ :=
  ((collectedData collectors).map (fun p => p.2.length)).sum

/-- Normalized divergence between a measured-only score and the
AI-enhanced score, on the 0-100 scale. -/
def normalizedDivergenceOf (measured : Option ℚ) (enhanced : ℚ) : ℚ :=
  match measured with
  | none => 0
  | some ms => |ms - enhanced| / 100

/-- The successful result assembled by `HybridAnalyzer.analyze`: metrics
from the enhanced data and confidence scores, `data_sources` the list of
sources that delivered data, `data_counts` their item counts — mirroring
the dict literal returned by the design document's `analyze` sketch. -/
def buildResult (collectors : CollectorOutcomes)
    (pipeline : List (List Item → List Item))
    (oracle : Option (MetricName → OracleReply))
    (measuredScore : MetricName → List (String × List Item) → Option ℚ)
    (realWeight : MetricName → ℚ)
    (targetCount : MetricName → ℕ)
    (timeframe : String) : ResonanceResult :=
  let collected_data := collectedData collectors
  let processed_data :=
    collected_data.map (fun p => (p.1, ProcessorPipeline.process pipeline p.2))
  let combined_data := processed_data
  let metricOf : MetricName → MetricResult := fun m =>
    let rawOracle : Option ℚ := (oracle.map (fun o => (o m).score)).join
    { score := metricScore (measuredScore m combined_data) rawOracle (realWeight m)
      key_insights := (oracle.map (fun o => (o m).key_insights)).getD []
      contributing_sources := combined_data.map Prod.fst }
  { metrics := metricOf
    confidence_scores := fun m =>
      confidenceScore (collectedItemCount collectors) (targetCount m)
        combined_data.length collectors.length
        (normalizedDivergenceOf (measuredScore m combined_data) (metricOf m).score)
    overall_score := overallScore (fun m => (metricOf m).score)
    data_sources := collected_data.map Prod.fst
    data_counts := collected_data.map (fun p => (p.1, p.2.length))
    timeframe := timeframe }

/-- Modelled from the spec: `HybridAnalyzer.analyze`'s orchestration.
The success path follows the design document's sketch (collect, process
each source through the pipeline, combine, enhance, score, return the
result dict); the error handling — failed sources excluded, and the
fatal `NoDataAvailable` exactly when no source produced any item and the
oracle is unreachable — is modelled from the spec, the sketch under src
having no error handling. -/
def HybridAnalyzer.analyze (collectors : CollectorOutcomes)
    (pipeline : List (List Item → List Item))
    (oracle : Option (MetricName → OracleReply))
    (measuredScore : MetricName → List (String × List Item) → Option ℚ)
    (realWeight : MetricName → ℚ)
    (targetCount : MetricName → ℕ)
    (timeframe : String) : Except AnalysisError ResonanceResult :=
  if collectedItemCount collectors = 0 ∧ oracle.isNone then
    .error .noDataAvailable
  else
    .ok (buildResult collectors pipeline oracle measuredScore realWeight
      targetCount timeframe)

/-- A sample collected item, used to instantiate the theorems below on
concrete inputs. -/
def sampleItem : Item :=
  { source := "forum", external_id := "t3_ex1", text := "great product",
    timestamp := 0, engagement_count := 3 }

/-- A sample item classified positive. -/
def samplePositiveItem : Item :=
  { sampleItem with sentiment_label := some .positive }

/-- A sample item classified neutral. -/
def sampleNeutralItem : Item :=
  { sampleItem with sentiment_label := some .neutral }

/-- A sample item classified negative. -/
def sampleNegativeItem : Item :=
  { sampleItem with sentiment_label := some .negative }

/-- Source A of the end-to-end scenario: 50 items, 60% positive and 40%
neutral. -/
def scenarioItemsA : List Item :=
  List.replicate 30 samplePositiveItem ++ List.replicate 20 sampleNeutralItem

/-- Source B of the end-to-end scenario: 30 items, 100% negative. -/
def scenarioItemsB : List Item :=
  List.replicate 30 sampleNegativeItem

/-- Sample collector outcomes: one source delivered one item, one source
failed. -/
def sampleCollectors : CollectorOutcomes :=
  [("forum", some [sampleItem]), ("microblog", none)]

/-- Sample collector outcomes distinguishing an empty-but-successful
source from a failed source. -/
def sampleMixedCollectors : CollectorOutcomes :=
  [("forum", some []), ("microblog", none), ("video", some [sampleItem])]

/-- Sample collector outcomes with no items at all: one failed source,
one source with zero items. -/
def sampleFailedCollectors : CollectorOutcomes :=
  [("forum", none), ("microblog", some [])]

/-- A sample measured-score function. -/
def sampleMeasuredScore : MetricName → List (String × List Item) → Option ℚ :=
  fun _ _ => some 60

/-- A sample real-data blend weight. -/
def sampleRealWeight : MetricName → ℚ := fun _ => 1/2

/-- A sample per-metric saturation target. -/
def sampleTargetCount : MetricName → ℕ := fun _ => 100

/-- A sample reachable oracle. -/
def sampleOracle : Option (MetricName → OracleReply) :=
  some (fun _ => { score := some 70, key_insights := ["sample insight"] })

lemma clampScore_nonneg (x : ℚ) : 0 ≤ clampScore x :=
  le_max_left 0 _

lemma clampScore_le_100 (x : ℚ) : clampScore x ≤ 100 :=
  max_le (by norm_num) (min_le_left _ _)

lemma clampScore_eq_self {x : ℚ} (h0 : 0 ≤ x) (h1 : x ≤ 100) :
    clampScore x = x := by
  unfold clampScore
  rw [min_eq_right h1, max_eq_right h0]

/-- C9: `ProcessorPipeline.process` is the left-to-right composition of
its stages: the empty pipeline is the identity, and the pipeline over a
concatenation of processor lists runs the first list and feeds its
output to the second. -/
theorem pipeline_compositional :
    (∀ d : List Item, ProcessorPipeline.process [] d = d) ∧
    (∀ (ps qs : List (List Item → List Item)) (d : List Item),
      ProcessorPipeline.process (ps ++ qs) d =
        ProcessorPipeline.process qs (ProcessorPipeline.process ps d)) := by
  constructor
  · intro d
    rfl
  · intro ps qs d
    simp [ProcessorPipeline.process, List.foldl_append]

/-- C8: the Processor Pipeline is deterministic — running it on two
identical input sequences yields identical output sequences (the
embedded pipeline is a pure fold over pure stage functions, with no
hidden randomness). -/
theorem pipeline_deterministic
    (processors : List (List Item → List Item)) (d₁ d₂ : List Item)
    (h : d₁ = d₂) :
    ProcessorPipeline.process processors d₁ =
      ProcessorPipeline.process processors d₂ := by
  rw [h]

/-- Witness for C8 at a concrete pipeline and input. -/
theorem pipeline_deterministic_witness :
    ProcessorPipeline.process [fun l => l ++ l] [sampleItem] =
      ProcessorPipeline.process [fun l => l ++ l] [sampleItem] :=
  pipeline_deterministic [fun l => l ++ l] [sampleItem] [sampleItem] rfl

/-- C7: the sentiment stage assigns exactly one of the five labels by
the fixed cut points — very_negative on (-∞,-0.6), negative on
[-0.6,-0.2), neutral on [-0.2,0.2], positive on (0.2,0.6], and
very_positive on (0.6,∞); the five characterizations show the intervals
cover every score disjointly. -/
theorem sentiment_cut_points (s : ℚ) :
    (sentimentLabelOf s = .very_negative ↔ s < -0.6) ∧
    (sentimentLabelOf s = .negative ↔ -0.6 ≤ s ∧ s < -0.2) ∧
    (sentimentLabelOf s = .neutral ↔ -0.2 ≤ s ∧ s ≤ 0.2) ∧
    (sentimentLabelOf s = .positive ↔ 0.2 < s ∧ s ≤ 0.6) ∧
    (sentimentLabelOf s = .very_positive ↔ 0.6 < s) := by
  unfold sentimentLabelOf
  split_ifs with h1 h2 h3 h4 <;>
    refine ⟨?_, ?_, ?_, ?_, ?_⟩ <;> simp <;>
    first
      | linarith
      | (constructor <;> linarith)
      | (intro h; linarith)

/-- C10: `getScoreColor` and `getScoreVariant` classify every score
totally and by the same thresholds: green/"success" exactly on [80,∞),
blue/"info" exactly on [60,80), orange/"warning" exactly on [40,60) and
red/"error" exactly on (-∞,40), so the displayed color and the chip
variant always agree on the band. -/
theorem score_color_variant_bands (s : ℚ) :
    (getScoreColor s = "#4caf50" ↔ 80 ≤ s) ∧
    (getScoreVariant s = "success" ↔ 80 ≤ s) ∧
    (getScoreColor s = "#2196f3" ↔ 60 ≤ s ∧ s < 80) ∧
    (getScoreVariant s = "info" ↔ 60 ≤ s ∧ s < 80) ∧
    (getScoreColor s = "#ff9800" ↔ 40 ≤ s ∧ s < 60) ∧
    (getScoreVariant s = "warning" ↔ 40 ≤ s ∧ s < 60) ∧
    (getScoreColor s = "#f44336" ↔ s < 40) ∧
    (getScoreVariant s = "error" ↔ s < 40) := by
  unfold getScoreColor getScoreVariant
  split_ifs with h1 h2 h3 <;>
    refine ⟨?_, ?_, ?_, ?_, ?_, ?_, ?_, ?_⟩ <;> simp <;>
    first
      | linarith
      | (constructor <;> linarith)
      | (intro h; linarith)

lemma weightedSum_eq (f : MetricName → ℚ) :
    weightedSum f =
      0.10 * f .conversational_depth + 0.15 * f .community_spread +
      0.20 * f .emotional_intensity + 0.30 * f .intent_signals +
      0.25 * f .advocacy_language := by
  simp [weightedSum, allMetrics, metricWeight]
  ring

lemma weightedSum_bounds (f : MetricName → ℚ)
    (h : ∀ m, 0 ≤ f m ∧ f m ≤ 100) :
    0 ≤ weightedSum f ∧ weightedSum f ≤ 100 := by
  have h1 := h .conversational_depth
  have h2 := h .community_spread
  have h3 := h .emotional_intensity
  have h4 := h .intent_signals
  have h5 := h .advocacy_language
  rw [weightedSum_eq]
  constructor <;> linarith [h1.1, h1.2, h2.1, h2.2, h3.1, h3.2, h4.1, h4.2,
    h5.1, h5.2]

/-- C1: the fixed weight table sums exactly to 1, the overall score is
the weighted sum with exactly these weights clamped to [0,100] (equal to
the bare weighted sum whenever the metric scores are themselves in
range), and the analyzer's result carries exactly this aggregation of
its produced metric scores, unrounded — rounding exists only in the
frontend's `displayedScore`. -/
theorem metric_weights_and_overall :
    ((allMetrics.map metricWeight).sum = 1) ∧
    (∀ f : MetricName → ℚ, overallScore f = clampScore (weightedSum f)) ∧
    (∀ f : MetricName → ℚ, (∀ m, 0 ≤ f m ∧ f m ≤ 100) →
      overallScore f = weightedSum f) ∧
    (∀ collectors pipeline oracle measuredScore realWeight targetCount
      timeframe,
      (buildResult collectors pipeline oracle measuredScore realWeight
        targetCount timeframe).overall_score =
        overallScore (fun m =>
          ((buildResult collectors pipeline oracle measuredScore realWeight
            targetCount timeframe).metrics m).score)) := by
  refine ⟨by norm_num [allMetrics, metricWeight], fun f => rfl, ?_, ?_⟩
  · intro f h
    have hb := weightedSum_bounds f h
    exact clampScore_eq_self hb.1 hb.2
  · intros
    rfl

/-- Witness for C1 at the constant in-range metric mapping 50. -/
theorem metric_weights_and_overall_witness :
    overallScore (fun _ => 50) = weightedSum (fun _ => 50) :=
  metric_weights_and_overall.2.2.1 (fun _ => 50) (fun _ => by norm_num)

lemma sentimentCount_cons (x : Item) (xs : List Item)
    (lab : SentimentLabel) :
    sentimentCount (x :: xs) lab =
      (if x.sentiment_label = some lab then 1 else 0) + sentimentCount xs lab := by
  by_cases h : x.sentiment_label = some lab <;>
    simp [sentimentCount, List.filter_cons, h] <;> omega

lemma sentimentCount_replicate (n : ℕ) (it : Item) (lab : SentimentLabel) :
    sentimentCount (List.replicate n it) lab =
      if it.sentiment_label = some lab then n else 0 := by
  induction n with
  | zero => simp [sentimentCount]
  | succ k ih =>
    rw [List.replicate_succ, sentimentCount_cons, ih]
    split_ifs <;> omega

lemma sentimentCount_append (xs ys : List Item) (lab : SentimentLabel) :
    sentimentCount (xs ++ ys) lab =
      sentimentCount xs lab + sentimentCount ys lab := by
  simp [sentimentCount, List.filter_append]

/-- C5: the combiner is a deterministic pure aggregation whose
cross-source sentiment distribution is weighted by item count: for two
sources the combined share of a label is the item-count-weighted blend
of the per-source shares, and on the end-to-end scenario (50 items at
60% positive / 40% neutral and 30 items at 100% negative) the combined
positive share is exactly 37.5%. -/
theorem combine_item_weighted :
    (∀ (d₁ d₂ : List (String × List Item)) (lab : SentimentLabel),
      d₁ = d₂ → combinedSentimentShare d₁ lab = combinedSentimentShare d₂ lab) ∧
    (∀ (nameA nameB : String) (A B : List Item) (lab : SentimentLabel),
      A.length ≠ 0 → B.length ≠ 0 →
      combinedSentimentShare [(nameA, A), (nameB, B)] lab =
        ((A.length : ℚ) * sentimentShare A lab +
          (B.length : ℚ) * sentimentShare B lab) /
          ((A.length : ℚ) + (B.length : ℚ))) ∧
    (combinedSentimentShare
        [("sourceA", scenarioItemsA), ("sourceB", scenarioItemsB)]
        .positive = 37.5 / 100) := by
  refine ⟨fun d₁ d₂ lab h => by rw [h], ?_, ?_⟩
  case refine_2 =>
    simp only [combinedSentimentShare, scenarioItemsA, scenarioItemsB,
      List.map_cons, List.map_nil, List.flatten_cons, List.flatten_nil,
      List.append_nil, sentimentCount_append, sentimentCount_replicate,
      samplePositiveItem, sampleNeutralItem, sampleNegativeItem, sampleItem,
      List.length_append, List.length_replicate]
    simp only [reduceCtorEq, if_false, Option.some.injEq]
    norm_num
  intro nameA nameB A B lab hA hB
  have hA' : ((A.length : ℚ)) ≠ 0 := Nat.cast_ne_zero.mpr hA
  have hB' : ((B.length : ℚ)) ≠ 0 := Nat.cast_ne_zero.mpr hB
  have hApos : (0 : ℚ) < A.length := by
    exact_mod_cast Nat.pos_of_ne_zero hA
  have hBpos : (0 : ℚ) < B.length := by
    exact_mod_cast Nat.pos_of_ne_zero hB
  have hAB : ((A.length : ℚ)) + (B.length : ℚ) ≠ 0 := by linarith
  simp only [combinedSentimentShare, sentimentShare, List.map_cons,
    List.map_nil, List.flatten_cons, List.flatten_nil, List.append_nil]
  rw [sentimentCount_append]
  push_cast
  field_simp

/-- Witness for C5: the item-weighted blend evaluated on the concrete
end-to-end scenario datasets. -/
theorem combine_item_weighted_witness :
    combinedSentimentShare
        [("sourceA", scenarioItemsA), ("sourceB", scenarioItemsB)]
        .positive =
      ((scenarioItemsA.length : ℚ) * sentimentShare scenarioItemsA .positive +
        (scenarioItemsB.length : ℚ) * sentimentShare scenarioItemsB .positive) /
        ((scenarioItemsA.length : ℚ) + (scenarioItemsB.length : ℚ)) :=
  combine_item_weighted.2.1 "sourceA" "sourceB" scenarioItemsA scenarioItemsB
    .positive (by decide) (by decide)

lemma snd_eq_of_nodup_keys {α β : Type _} {l : List (α × β)}
    (h : (l.map Prod.fst).Nodup) {a : α} {b b' : β}
    (h1 : (a, b) ∈ l) (h2 : (a, b') ∈ l) : b = b' := by
  induction l with
  | nil => cases h1
  | cons x xs ih =>
    rw [List.map_cons, List.nodup_cons] at h
    rcases List.mem_cons.mp h1 with h1' | h1'
    · subst h1'
      rcases List.mem_cons.mp h2 with h2' | h2'
      · injection h2' with _ hb
        exact hb.symm
      · exact absurd (List.mem_map.mpr ⟨(a, b'), h2', rfl⟩) h.1
    · rcases List.mem_cons.mp h2 with h2' | h2'
      · subst h2'
        exact absurd (List.mem_map.mpr ⟨(a, b), h1', rfl⟩) h.1
      · exact ih h.2 h1' h2'

lemma mem_collectedData_of_some {collectors : CollectorOutcomes} {s : String}
    {d : List Item} (h : (s, some d) ∈ collectors) :
    (s, d) ∈ collectedData collectors := by
  unfold collectedData
  exact List.mem_filterMap.mpr ⟨(s, some d), h, rfl⟩

lemma exists_of_mem_collectedData {collectors : CollectorOutcomes}
    {p : String × List Item} (h : p ∈ collectedData collectors) :
    (p.1, some p.2) ∈ collectors := by
  unfold collectedData at h
  rcases List.mem_filterMap.mp h with ⟨⟨qs, qd⟩, hq, hmap⟩
  cases qd with
  | none => simp at hmap
  | some d =>
    simp only [Option.map_some'] at hmap
    injection hmap with hmap
    subst hmap
    exact hq

lemma analyze_ok_elim {collectors : CollectorOutcomes}
    {pipeline : List (List Item → List Item)}
    {oracle : Option (MetricName → OracleReply)}
    {measuredScore : MetricName → List (String × List Item) → Option ℚ}
    {realWeight : MetricName → ℚ} {targetCount : MetricName → ℕ}
    {timeframe : String} {r : ResonanceResult}
    (h : HybridAnalyzer.analyze collectors pipeline oracle measuredScore
      realWeight targetCount timeframe = .ok r) :
    r = buildResult collectors pipeline oracle measuredScore realWeight
      targetCount timeframe := by
  unfold HybridAnalyzer.analyze at h
  split_ifs at h
  cases h
  rfl

/-- C2: every result that `analyze` returns has its overall score and
every metric score in [0,100], and an oracle score outside [0,100] is
discarded by validation before use — the produced metric scores do not
depend on the out-of-range value. -/
theorem analyze_scores_in_range (collectors : CollectorOutcomes)
    (pipeline : List (List Item → List Item))
    (oracle : Option (MetricName → OracleReply))
    (measuredScore : MetricName → List (String × List Item) → Option ℚ)
    (realWeight : MetricName → ℚ) (targetCount : MetricName → ℕ)
    (timeframe : String) (r : ResonanceResult)
    (h : HybridAnalyzer.analyze collectors pipeline oracle measuredScore
      realWeight targetCount timeframe = .ok r) :
    (∀ m, 0 ≤ (r.metrics m).score ∧ (r.metrics m).score ≤ 100) ∧
    (0 ≤ r.overall_score ∧ r.overall_score ≤ 100) ∧
    (∀ v : ℚ, ¬(0 ≤ v ∧ v ≤ 100) →
      validateOracleScore (some v) = none ∧
      ∀ measured w, metricScore measured (some v) w = metricScore measured none w) := by
  have hr := analyze_ok_elim h
  subst hr
  refine ⟨?_, ⟨?_, ?_⟩, ?_⟩
  · intro m
    exact ⟨clampScore_nonneg _, clampScore_le_100 _⟩
  · exact clampScore_nonneg _
  · exact clampScore_le_100 _
  · intro v hv
    have hval : validateOracleScore (some v) = none := by
      show (if 0 ≤ v ∧ v ≤ 100 then some v else none) = none
      rw [if_neg hv]
    refine ⟨hval, fun measured w => ?_⟩
    unfold metricScore
    rw [hval]
    rfl

/-- Witness for C2 on concrete analyzer inputs (one successful source,
one failed source, a reachable oracle). -/
theorem analyze_scores_in_range_witness :
    0 ≤ ((buildResult sampleCollectors [] sampleOracle sampleMeasuredScore
        sampleRealWeight sampleTargetCount "30d").metrics .intent_signals).score ∧
      ((buildResult sampleCollectors [] sampleOracle sampleMeasuredScore
        sampleRealWeight sampleTargetCount "30d").metrics .intent_signals).score ≤
        100 :=
  (analyze_scores_in_range sampleCollectors [] sampleOracle sampleMeasuredScore
    sampleRealWeight sampleTargetCount "30d"
    (buildResult sampleCollectors [] sampleOracle sampleMeasuredScore
      sampleRealWeight sampleTargetCount "30d") rfl).1 .intent_signals

/-- C3: a queried source that returned zero items still appears in the
result's `data_counts` with count 0 and in `data_sources`, while a
source whose collection failed is omitted from `data_sources` entirely
(assuming, as for a dict, that source names are unique). -/
theorem zero_items_vs_failed_source (collectors : CollectorOutcomes)
    (pipeline : List (List Item → List Item))
    (oracle : Option (MetricName → OracleReply))
    (measuredScore : MetricName → List (String × List Item) → Option ℚ)
    (realWeight : MetricName → ℚ) (targetCount : MetricName → ℕ)
    (timeframe : String) (s : String) (r : ResonanceResult)
    (h : HybridAnalyzer.analyze collectors pipeline oracle measuredScore
      realWeight targetCount timeframe = .ok r) :
    ((s, some ([] : List Item)) ∈ collectors →
      (s, 0) ∈ r.data_counts ∧ s ∈ r.data_sources) ∧
    ((collectors.map Prod.fst).Nodup →
      (s, (none : Option (List Item))) ∈ collectors → s ∉ r.data_sources) := by
  have hr := analyze_ok_elim h
  subst hr
  constructor
  · intro hmem
    have hc := mem_collectedData_of_some hmem
    exact ⟨List.mem_map.mpr ⟨(s, []), hc, rfl⟩,
      List.mem_map.mpr ⟨(s, []), hc, rfl⟩⟩
  · intro hnodup hmem hin
    have hin' : s ∈ (collectedData collectors).map Prod.fst := hin
    rcases List.mem_map.mp hin' with ⟨p, hp, hps⟩
    have hsome := exists_of_mem_collectedData hp
    rw [hps] at hsome
    have hcontra := snd_eq_of_nodup_keys hnodup hsome hmem
    cases hcontra

/-- Witness for C3: with one empty-but-successful source, one failed
source and one source with data, the empty source shows up with count 0
and the failed source is absent. -/
theorem zero_items_vs_failed_source_witness :
    (("forum", 0) ∈ (buildResult sampleMixedCollectors [] none
        sampleMeasuredScore sampleRealWeight sampleTargetCount
        "30d").data_counts) ∧
    ("microblog" ∉ (buildResult sampleMixedCollectors [] none
        sampleMeasuredScore sampleRealWeight sampleTargetCount
        "30d").data_sources) :=
  ⟨((zero_items_vs_failed_source sampleMixedCollectors [] none
      sampleMeasuredScore sampleRealWeight sampleTargetCount "30d" "forum"
      (buildResult sampleMixedCollectors [] none sampleMeasuredScore
        sampleRealWeight sampleTargetCount "30d") rfl).1 (by decide)).1,
    (zero_items_vs_failed_source sampleMixedCollectors [] none
      sampleMeasuredScore sampleRealWeight sampleTargetCount "30d" "microblog"
      (buildResult sampleMixedCollectors [] none sampleMeasuredScore
        sampleRealWeight sampleTargetCount "30d") rfl).2 (by decide) (by decide)⟩

/-- C4: `analyze` fails with the distinct `NoDataAvailable` error exactly
when zero items were collected across all sources and the oracle is
unreachable; in every other case it returns a result, and in the
total-failure case it returns no result at all. -/
theorem no_data_available_iff (collectors : CollectorOutcomes)
    (pipeline : List (List Item → List Item))
    (oracle : Option (MetricName → OracleReply))
    (measuredScore : MetricName → List (String × List Item) → Option ℚ)
    (realWeight : MetricName → ℚ) (targetCount : MetricName → ℕ)
    (timeframe : String) :
    (HybridAnalyzer.analyze collectors pipeline oracle measuredScore realWeight
        targetCount timeframe = .error .noDataAvailable ↔
      collectedItemCount collectors = 0 ∧ oracle = none) ∧
    (¬(collectedItemCount collectors = 0 ∧ oracle = none) →
      HybridAnalyzer.analyze collectors pipeline oracle measuredScore realWeight
        targetCount timeframe =
        .ok (buildResult collectors pipeline oracle measuredScore realWeight
          targetCount timeframe)) ∧
    (collectedItemCount collectors = 0 ∧ oracle = none →
      ∀ r, HybridAnalyzer.analyze collectors pipeline oracle measuredScore
        realWeight targetCount timeframe ≠ .ok r) := by
  refine ⟨⟨?_, ?_⟩, ?_, ?_⟩
  · intro heq
    by_cases hc : collectedItemCount collectors = 0 ∧ oracle.isNone
    · exact ⟨hc.1, Option.isNone_iff_eq_none.mp hc.2⟩
    · unfold HybridAnalyzer.analyze at heq
      rw [if_neg hc] at heq
      cases heq
  · intro hn
    unfold HybridAnalyzer.analyze
    rw [if_pos ⟨hn.1, Option.isNone_iff_eq_none.mpr hn.2⟩]
  · intro hn
    unfold HybridAnalyzer.analyze
    rw [if_neg (fun hcond =>
      hn ⟨hcond.1, Option.isNone_iff_eq_none.mp hcond.2⟩)]
  · intro hn r heq
    unfold HybridAnalyzer.analyze at heq
    rw [if_pos ⟨hn.1, Option.isNone_iff_eq_none.mpr hn.2⟩] at heq
    cases heq

/-- Witness for C4: all sources failed or empty and the oracle is
unreachable, so `analyze` raises `NoDataAvailable`. -/
theorem no_data_available_iff_witness :
    HybridAnalyzer.analyze sampleFailedCollectors [] none sampleMeasuredScore
      sampleRealWeight sampleTargetCount "30d" = .error .noDataAvailable :=
  (no_data_available_iff sampleFailedCollectors [] none sampleMeasuredScore
    sampleRealWeight sampleTargetCount "30d").1.mpr ⟨by decide, rfl⟩

lemma sampleSizeFactor_nonneg (c t : ℕ) : 0 ≤ sampleSizeFactor c t :=
  le_min (by norm_num) (div_nonneg (Nat.cast_nonneg c) (Nat.cast_nonneg t))

lemma sampleSizeFactor_le_one (c t : ℕ) : sampleSizeFactor c t ≤ 1 :=
  min_le_left _ _

lemma sourceDiversityFactor_nonneg (c q : ℕ) : 0 ≤ sourceDiversityFactor c q :=
  div_nonneg (Nat.cast_nonneg c) (Nat.cast_nonneg q)

lemma sourceDiversityFactor_le_one {c q : ℕ} (h : c ≤ q) :
    sourceDiversityFactor c q ≤ 1 := by
  unfold sourceDiversityFactor
  rcases Nat.eq_zero_or_pos q with hq | hq
  · subst hq
    simp
  · rw [div_le_one (by exact_mod_cast hq)]
    exact_mod_cast h

lemma sampleSizeFactor_mono {c₁ c₂ : ℕ} (t : ℕ) (h : c₁ ≤ c₂) :
    sampleSizeFactor c₁ t ≤ sampleSizeFactor c₂ t := by
  unfold sampleSizeFactor
  rcases Nat.eq_zero_or_pos t with ht | ht
  · subst ht
    simp
  · have htq : (0 : ℚ) < t := by exact_mod_cast ht
    exact min_le_min le_rfl ((div_le_div_right htq).mpr (by exact_mod_cast h))

lemma sampleSizeFactor_strict {c₁ c₂ t : ℕ} (h : c₁ < c₂) (h2 : c₂ ≤ t) :
    sampleSizeFactor c₁ t < sampleSizeFactor c₂ t := by
  have ht : 0 < t := lt_of_lt_of_le (Nat.zero_lt_of_lt h) h2
  have htq : (0 : ℚ) < t := by exact_mod_cast ht
  have hlt : (c₁ : ℚ) / t < (c₂ : ℚ) / t :=
    (div_lt_div_right htq).mpr (by exact_mod_cast h)
  have hle2 : (c₂ : ℚ) / t ≤ 1 := by
    rw [div_le_one htq]
    exact_mod_cast h2
  have hle1 : (c₁ : ℚ) / t ≤ 1 := le_of_lt (lt_of_lt_of_le hlt hle2)
  unfold sampleSizeFactor
  rw [min_eq_right hle1, min_eq_right hle2]
  exact hlt

/-- C6 (counterexample): the per-metric confidence does not strictly
increase with sample size in general — once the sample size reaches the
saturation target the sample-size factor is constant, so 100 items and
200 items (target 100, one source of one, no divergence) give equal
confidence. -/
theorem confidence_strict_monotone_counterexample :
    ¬ (∀ (c₁ c₂ target contributing queried : ℕ) (d : ℚ),
        c₁ < c₂ →
        confidenceScore c₁ target contributing queried d <
          confidenceScore c₂ target contributing queried d) := by
  intro h
  have h2 := h 100 200 100 1 1 0 (by norm_num)
  have e1 : confidenceScore 100 100 1 1 0 = 1 := by
    norm_num [confidenceScore, sampleSizeFactor, sourceDiversityFactor,
      agreementFactor]
  have e2 : confidenceScore 200 100 1 1 0 = 1 := by
    norm_num [confidenceScore, sampleSizeFactor, sourceDiversityFactor,
      agreementFactor, min_def]
  rw [e1, e2] at h2
  exact lt_irrefl 1 h2

/-- C6 (amended): the confidence is the multiplicative combination of the
sample-size, source-diversity and agreement factors; it lies in [0,1]
whenever the contributing sources do not exceed the queried sources and
the divergence is normalized to [0,1]; it is non-decreasing in sample
size, and strictly increasing while the sample size stays within the
saturation target with positive diversity and agreement. -/
theorem confidence_factors_bounds_monotone :
    (∀ (count target contributing queried : ℕ) (d : ℚ),
      confidenceScore count target contributing queried d =
        sampleSizeFactor count target *
          sourceDiversityFactor contributing queried * agreementFactor d) ∧
    (∀ (count target contributing queried : ℕ) (d : ℚ),
      contributing ≤ queried → 0 ≤ d → d ≤ 1 →
      0 ≤ confidenceScore count target contributing queried d ∧
        confidenceScore count target contributing queried d ≤ 1) ∧
    (∀ (c₁ c₂ target contributing queried : ℕ) (d : ℚ),
      c₁ ≤ c₂ → 0 ≤ d → d ≤ 1 →
      confidenceScore c₁ target contributing queried d ≤
        confidenceScore c₂ target contributing queried d) ∧
    (∀ (c₁ c₂ target contributing queried : ℕ) (d : ℚ),
      c₁ < c₂ → c₂ ≤ target →
      0 < sourceDiversityFactor contributing queried → d < 1 →
      confidenceScore c₁ target contributing queried d <
        confidenceScore c₂ target contributing queried d) := by
  refine ⟨fun _ _ _ _ _ => rfl, ?_, ?_, ?_⟩
  · intro count target contributing queried d hcq hd0 hd1
    have n1 := sampleSizeFactor_nonneg count target
    have b1 := sampleSizeFactor_le_one count target
    have n2 := sourceDiversityFactor_nonneg contributing queried
    have b2 := sourceDiversityFactor_le_one hcq
    have nA : 0 ≤ agreementFactor d := by
      unfold agreementFactor
      linarith
    have bA : agreementFactor d ≤ 1 := by
      unfold agreementFactor
      linarith
    constructor
    · exact mul_nonneg (mul_nonneg n1 n2) nA
    · calc sampleSizeFactor count target *
          sourceDiversityFactor contributing queried * agreementFactor d ≤
          1 * 1 * 1 := by
            apply mul_le_mul (mul_le_mul b1 b2 n2 (by norm_num)) bA nA
            norm_num
        _ = 1 := by norm_num
  · intro c₁ c₂ target contributing queried d hc hd0 hd1
    have nA : 0 ≤ agreementFactor d := by
      unfold agreementFactor
      linarith
    exact mul_le_mul_of_nonneg_right
      (mul_le_mul_of_nonneg_right (sampleSizeFactor_mono target hc)
        (sourceDiversityFactor_nonneg _ _)) nA
  · intro c₁ c₂ target contributing queried d hc hct hD hd
    have hA : 0 < agreementFactor d := by
      unfold agreementFactor
      linarith
    exact mul_lt_mul_of_pos_right
      (mul_lt_mul_of_pos_right (sampleSizeFactor_strict hc hct) hD) hA

/-- Witness for C6 (amended): the spec's 10-versus-100 synthetic test at
target 100, one contributing source of two queried, divergence 1/2. -/
theorem confidence_factors_bounds_monotone_witness :
    confidenceScore 10 100 1 2 (1/2) < confidenceScore 100 100 1 2 (1/2) :=
  confidence_factors_bounds_monotone.2.2.2 10 100 100 1 2 (1/2)
    (by norm_num) (by norm_num) (by norm_num [sourceDiversityFactor])
    (by norm_num)

end Resonance
